import Mathlib

/-!
Shallow embedding of the response-dispatch and authentication core of the
refitt web API (src/refitt/web/api/response.py and the auth middleware it
serves), together with theorems settling the specification claims.
-/

namespace Refitt

/-- A JSON value, as produced by handlers and serialized by json.dumps.
Objects keep their fields in insertion order, as Python dicts do. -/
inductive JsonValue where
  | null
  | bool (b : Bool)
  | num (n : Int)
  | str (s : String)
  | arr (elems : List JsonValue)
  | obj (fields : List (String × JsonValue))

/-- A Python dict with string keys, in insertion order. -/
abbrev JsonObject := List (String × JsonValue)

/-- Python dict item assignment d[k] = v: overwrite in place when the key is
present, append otherwise. -/
def dictSet (d : JsonObject) (k : String) (v : JsonValue) : JsonObject :=
  if d.any (fun p => p.1 == k) then
    d.map (fun p => if p.1 == k then (k, v) else p)
  else
    d ++ [(k, v)]

/-- String dict assignment, for response headers (response.headers[key] = value). -/
def headerSet (d : List (String × String)) (k v : String) : List (String × String) :=
  if d.any (fun p => p.1 == k) then
    d.map (fun p => if p.1 == k then (k, v) else p)
  else
    d ++ [(k, v)]

/-- The dynamic type of a raised exception. The first fifteen constructors are
the classes keyed in RESPONSE_MAP (response.py lines 90-106). The remaining
constructors stand for exception classes that are not keys of the table:
the WebException base class itself, a proper subclass of NotFound, and any
other exception class. -/
inductive ExcType where
  | tokenNotFound
  | authenticationNotFound
  | tokenInvalid
  | authenticationInvalid
  | permissionDenied
  | tokenExpired
  | recordNotFound
  | notFound
  | payloadNotFound
  | payloadMalformed
  | payloadInvalid
  | constraintViolation
  | parameterInvalid
  | notImplementedError
  | payloadTooLarge
  | webException
  | notFoundSubclass
  | otherError
  deriving DecidableEq, BEq

/-- A raised exception value: its exact dynamic type and its str(error) text. -/
structure Exc where
  ty : ExcType
  msg : String

/-- The proper superclasses (below builtin Exception) of each class, read off
the class declarations in response.py: NotFound, PayloadTooLarge,
PayloadNotFound, PayloadMalformed, PayloadInvalid, ConstraintViolation and
ParameterInvalid all derive WebException. notFoundSubclass stands for a
hypothetical proper subclass of NotFound. The token and auth classes are
declared outside this file set and their hierarchy is not needed here. -/
def superclasses : ExcType → List ExcType
  | .notFound => [.webException]
  | .payloadTooLarge => [.webException]
  | .payloadNotFound => [.webException]
  | .payloadMalformed => [.webException]
  | .payloadInvalid => [.webException]
  | .constraintViolation => [.webException]
  | .parameterInvalid => [.webException]
  | .notFoundSubclass => [.notFound, .webException]
  | _ => []

/-- t is a proper subclass of u. -/
def isStrictSubclass (t u : ExcType) : Bool :=
  (superclasses t).contains u

/-- The STATUS table of response.py (lines 39-55). -/
def STATUS : List (String × Nat) :=
  [ ("OK",                            200),
    ("Created",                       201),
    ("No Content",                    204),
    ("Bad Request",                   400),
    ("Unauthorized",                  401),
    ("Forbidden",                     403),
    ("Not Found",                     404),
    ("Method Not Allowed",            405),
    ("Payload Too Large",             413),
    ("Too Many Requests",             429),
    ("Unavailable For Legal Reasons", 451),
    ("Internal Server Error",         500),
    ("Not Implemented",               501),
    ("Service Unavailable",           503) ]

/-- Python STATUS[key]; every use in the source is a key that is present, so
the default branch is never taken. -/
def statusGet (key : String) : Nat :=
  (STATUS.lookup key).getD 0

/-- RESPONSE_MAP (response.py lines 90-106): a dict keyed by the exact
exception class. Membership (type(error) in RESPONSE_MAP) and indexing are
both modelled by this lookup on the exact dynamic type. -/
def RESPONSE_MAP : ExcType → Option Nat
  | .tokenNotFound          => some (statusGet "Forbidden")
  | .authenticationNotFound => some (statusGet "Forbidden")
  | .tokenInvalid           => some (statusGet "Forbidden")
  | .authenticationInvalid  => some (statusGet "Forbidden")
  | .permissionDenied       => some (statusGet "Unauthorized")
  | .tokenExpired           => some (statusGet "Unauthorized")
  | .recordNotFound         => some (statusGet "Not Found")
  | .notFound               => some (statusGet "Not Found")
  | .payloadNotFound        => some (statusGet "Bad Request")
  | .payloadMalformed       => some (statusGet "Bad Request")
  | .payloadInvalid         => some (statusGet "Bad Request")
  | .constraintViolation    => some (statusGet "Bad Request")
  | .parameterInvalid       => some (statusGet "Bad Request")
  | .notImplementedError    => some (statusGet "Not Implemented")
  | .payloadTooLarge        => some (statusGet "Payload Too Large")
  | _ => none

/-- A chunk of bytes produced by a streaming handler. -/
abbrev ByteChunk := List Nat

/-- The body of a flask Response: either a JSON document (passed to
json.dumps) or a binary stream. -/
inductive Body where
  | json (v : JsonValue)
  | stream (chunks : List ByteChunk)

/-- A flask Response as constructed by response.py: body, HTTP status,
mimetype and any explicitly set headers. -/
structure Response where
  body : Body
  status : Nat
  mimetype : String
  headers : List (String × String)

/-- The (headers, byte-producing-sequence) pair a streaming-mode route
returns on success. -/
structure StreamValue where
  headers : List (String × String)
  chunks : List ByteChunk

/-- format_json (response.py lines 119-137): wraps the invoked route result.
The finally block always returns Response(json.dumps(response), status), so
the function is total over the route outcome. -/
def format_json (routeResult : Except Exc JsonValue) : Response :=
  let status := statusGet "OK"
  let response : JsonObject := [("Status", .str "Success")]
  match routeResult with
  | .ok value =>
      { body := .json (.obj (dictSet response "Response" value)),
        status := status, mimetype := "application/json", headers := [] }
  | .error error =>
      match RESPONSE_MAP error.ty with
      | some code =>
          { body := .json (.obj (dictSet (dictSet response "Status" (.str "Error"))
                                         "Message" (.str error.msg))),
            status := code, mimetype := "application/json", headers := [] }
      | none =>
          { body := .json (.obj (dictSet (dictSet response "Status" (.str "Critical"))
                                         "Message" (.str error.msg))),
            status := statusGet "Internal Server Error",
            mimetype := "application/json", headers := [] }

/-- The Response the try block of format_stream constructs on success
(response.py lines 143-146): the stream body with HTTP 200 and every
caller-specified header set on it. -/
def streamSuccessResponse (value : StreamValue) : Response :=
  value.headers.foldl (fun resp kv => { resp with headers := headerSet resp.headers kv.1 kv.2 })
    { body := .stream value.chunks, status := statusGet "OK",
      mimetype := "application/octet-stream", headers := [] }

/-- format_stream (response.py lines 139-159). On a raised error the except
block returns a JSON error envelope. On success the try block builds the
stream Response and sets its headers but contains no return statement, and
the finally block only logs, so control falls off the end of the function
and it returns None. -/
def format_stream (routeResult : Except Exc StreamValue) : Option Response :=
  let status := statusGet "OK"
  match routeResult with
  | .ok value =>
      let _response := streamSuccessResponse value
      none
  | .error error =>
      let response : JsonObject := []
      match RESPONSE_MAP error.ty with
      | some code =>
          some { body := .json (.obj (dictSet (dictSet response "Status" (.str "Error"))
                                              "Message" (.str error.msg))),
                 status := code, mimetype := "application/json", headers := [] }
      | none =>
          let _ := status
          some { body := .json (.obj (dictSet (dictSet response "Status" (.str "Critical"))
                                              "Message" (.str error.msg))),
                 status := statusGet "Internal Server Error",
                 mimetype := "application/json", headers := [] }

/-- content_type_not_implemented (response.py lines 161-165): ignores all
request arguments and returns a fixed 500 Critical envelope naming the
content type the decorator was given. -/
def content_type_not_implemented (content_type : String) (_args : List JsonValue) : Response :=
  { body := .json (.obj [("Status", .str "Critical"),
      ("Message", .str ("Content-type not defined: \x27" ++ content_type ++ "\x27"))]),
    status := statusGet "Internal Server Error",
    mimetype := "application/json", headers := [] }

/-- Which wrapped function the endpoint decorator returns for a content
type (response.py lines 167-173). -/
inductive DispatchMode where
  | jsonMode
  | streamMode
  | notDefined
  deriving DecidableEq

/-- The dispatch of the endpoint decorator on its content_type argument. -/
def endpoint (content_type : String) : DispatchMode :=
  if content_type = "application/json" then .jsonMode
  else if content_type = "application/octet-stream" then .streamMode
  else .notDefined

/-- Python string slicing s[:n], by characters. -/
def strTake (s : String) (n : Nat) : String :=
  ⟨s.data.take n⟩

/-- Python string slicing s[n:], by characters. -/
def strDrop (s : String) (n : Nat) : String :=
  ⟨s.data.drop n⟩

/-- Python string slicing s[-n:], by characters. -/
def strTakeRight (s : String) (n : Nat) : String :=
  ⟨s.data.drop (s.data.length - n)⟩

/-- Modelled from the spec: the truncated token preview required for
TokenInvalid messages — the first 3 and the last 3 characters of the token
joined by "..." (spec section 6; the token codec source, web/token.py, is
not among the provided files). -/
def truncated (token : String) : String :=
  strTake token 3 ++ "..." ++ strTakeRight token 3

/-- Modelled from the spec: the claims carried by a signed bearer token —
subject (client identifier) and expiry (spec section 3, Token). The
issued-at field plays no role in any claim and is omitted. -/
structure JWT where
  sub : Nat
  exp : Int

/-- Modelled from the spec: a client identity with its key, hashed secret
and per-client access-revocation flag (spec section 3). -/
structure Client where
  id : Nat
  key : String
  secretHash : String
  revoked : Bool

/-- Modelled from the spec: the environment the auth middleware consults —
the set of validly signed tokens with their claims (signing is opaque, so a
token verifies exactly when it is in this table), the current time, the
known clients, and the secret hash function (spec sections 4.1-4.3; the
middleware source, web/api/auth.py and web/token.py, is not among the
provided files). -/
structure AuthEnv where
  signedTokens : List (String × JWT)
  now : Int
  clients : List Client
  hash : String → String

/-- An incoming request as the middleware sees it: the optional
Authorization header and the optional HTTP Basic (key, secret) pair. -/
structure Request where
  authorization : Option String
  auth : Option (String × String)

/-- Modelled from the spec: Token Codec decrypt (spec section 4.1) — fails
with TokenInvalid when the signature does not verify (the token is not in
the signed-token table), including only the truncated preview of the token
in the message; fails with TokenExpired when the current time exceeds the
expiry. -/
def decrypt (env : AuthEnv) (token : String) : Except Exc JWT :=
  match env.signedTokens.lookup token with
  | none => .error ⟨.tokenInvalid, "Token invalid: \x27" ++ truncated token ++ "\x27"⟩
  | some claims =>
      if env.now > claims.exp then .error ⟨.tokenExpired, "Token expired"⟩
      else .ok claims

/-- Modelled from the spec: the authenticated middleware (spec section 4.3)
— requires an Authorization Bearer header, runs the token codec, resolves
the subject to a client, and fails with PermissionDenied when that client
has its access-revocation flag set, regardless of token validity. The
missing-header message is the literal from spec section 8. -/
def authenticated (env : AuthEnv) (req : Request) : Except Exc Client :=
  match req.authorization with
  | none => .error ⟨.tokenNotFound, "Expected \"Authorization: Bearer <token>\" in header"⟩
  | some header =>
      if strTake header 7 = "Bearer " then
        match decrypt env (strDrop header 7) with
        | .error e => .error e
        | .ok claims =>
            match env.clients.find? (fun c => c.id == claims.sub) with
            | none => .error ⟨.tokenInvalid,
                "Token invalid: \x27" ++ truncated (strDrop header 7) ++ "\x27"⟩
            | some client =>
                if client.revoked then
                  .error ⟨.permissionDenied, "Access has been revoked"⟩
                else .ok client
      else .error ⟨.tokenNotFound, "Expected \"Authorization: Bearer <token>\" in header"⟩

/-- Modelled from the spec: Credential Store verify(key, secret) (spec
sections 4.2 and 3) — AuthenticationNotFound when no pair was supplied,
AuthenticationInvalid when the key matches no client or the secret fails
hash-based verification, and PermissionDenied when the client has its
access-revocation flag set even though the credential is otherwise valid.
Messages are the literals asserted by the integration tests. -/
def verify (env : AuthEnv) (req : Request) : Except Exc Client :=
  match req.auth with
  | none => .error ⟨.authenticationNotFound, "Missing key:secret in header"⟩
  | some (key, secret) =>
      match env.clients.find? (fun c => c.key == key) with
      | none => .error ⟨.authenticationInvalid, "Client key invalid"⟩
      | some client =>
          if env.hash secret ≠ client.secretHash then
            .error ⟨.authenticationInvalid, "Client secret invalid"⟩
          else if client.revoked then
            .error ⟨.permissionDenied, "Access has been revoked"⟩
          else .ok client

/-- A token-protected JSON route: the endpoint decorator in JSON mode wraps
the authenticated middleware wrapping the handler, so middleware errors are
formatted by format_json. -/
def protectedJson (env : AuthEnv) (req : Request)
    (handler : Client → Except Exc JsonValue) : Response :=
  format_json (match authenticated env req with
    | .error e => .error e
    | .ok client => handler client)

/-- A credential-protected (login) JSON route: format_json over the
Credential Store check wrapping the handler. -/
def loginJson (env : AuthEnv) (req : Request)
    (handler : Client → Except Exc JsonValue) : Response :=
  format_json (match verify env req with
    | .error e => .error e
    | .ok client => handler client)

/-- The Status field of a JSON response body. -/
def statusField (r : Response) : Option JsonValue :=
  match r.body with
  | .json (.obj fields) => fields.lookup "Status"
  | _ => none

/-- The Message field of a JSON response body. -/
def messageField (r : Response) : Option JsonValue :=
  match r.body with
  | .json (.obj fields) => fields.lookup "Message"
  | _ => none

/-- C1: under the JSON-mode endpoint decorator, a handler error whose kind
is in the taxonomy table yields the table-mapped HTTP status (TokenNotFound
403, AuthenticationNotFound 403, TokenInvalid 403, AuthenticationInvalid
403, PermissionDenied 401, TokenExpired 401, RecordNotFound 404, NotFound
404, PayloadNotFound 400, PayloadMalformed 400, PayloadInvalid 400,
ConstraintViolation 400, ParameterInvalid 400, NotImplemented 501,
PayloadTooLarge 413) with Status "Error" and Message the error text; an
error not in the table yields 500 with Status "Critical". -/
theorem c1_json_taxonomy_dispatch :
    (RESPONSE_MAP .tokenNotFound = some 403 ∧
     RESPONSE_MAP .authenticationNotFound = some 403 ∧
     RESPONSE_MAP .tokenInvalid = some 403 ∧
     RESPONSE_MAP .authenticationInvalid = some 403 ∧
     RESPONSE_MAP .permissionDenied = some 401 ∧
     RESPONSE_MAP .tokenExpired = some 401 ∧
     RESPONSE_MAP .recordNotFound = some 404 ∧
     RESPONSE_MAP .notFound = some 404 ∧
     RESPONSE_MAP .payloadNotFound = some 400 ∧
     RESPONSE_MAP .payloadMalformed = some 400 ∧
     RESPONSE_MAP .payloadInvalid = some 400 ∧
     RESPONSE_MAP .constraintViolation = some 400 ∧
     RESPONSE_MAP .parameterInvalid = some 400 ∧
     RESPONSE_MAP .notImplementedError = some 501 ∧
     RESPONSE_MAP .payloadTooLarge = some 413) ∧
    (∀ (t : ExcType) (msg : String),
      format_json (.error ⟨t, msg⟩) =
        match RESPONSE_MAP t with
        | some code =>
            { body := .json (.obj [("Status", .str "Error"), ("Message", .str msg)]),
              status := code, mimetype := "application/json", headers := [] }
        | none =>
            { body := .json (.obj [("Status", .str "Critical"), ("Message", .str msg)]),
              status := 500, mimetype := "application/json", headers := [] }) := by
  refine ⟨⟨rfl, rfl, rfl, rfl, rfl, rfl, rfl, rfl, rfl, rfl, rfl, rfl, rfl, rfl, rfl⟩, ?_⟩
  intro t msg
  cases t <;> rfl

/-- C7: under the JSON-mode endpoint decorator, a handler returning v
normally yields HTTP 200 with Status "Success" and Response equal to v. -/
theorem c7_json_success (v : JsonValue) :
    format_json (.ok v) =
      { body := .json (.obj [("Status", .str "Success"), ("Response", v)]),
        status := 200, mimetype := "application/json", headers := [] } := rfl

/-- C2: the claim that the streaming-mode decorator returns the binary 200
response on a normal handler return fails on the code — the try block of
format_stream builds that response and sets the caller-specified headers on
it, but contains no return statement and the finally block only logs, so
the wrapper returns None for every successful (headers, stream) pair. The
response the claim describes is exactly streamSuccessResponse, which is
constructed and then dropped. -/
theorem c2_stream_success_returns_none (value : StreamValue) :
    format_stream (.ok value) = none ∧
    streamSuccessResponse value =
      value.headers.foldl
        (fun resp kv => { resp with headers := headerSet resp.headers kv.1 kv.2 })
        { body := .stream value.chunks, status := 200,
          mimetype := "application/octet-stream", headers := [] } :=
  ⟨rfl, rfl⟩

/-- C6: for every handler error, the streaming-mode decorator returns
exactly the JSON-mode decorator error response for that error — same
taxonomy-mapped HTTP status (500 for a non-taxonomy error), same Status
field, same Message, delivered as a JSON body. -/
theorem c6_stream_error_equals_json_error (e : Exc) :
    format_stream (.error e) = some (format_json (.error e)) := by
  obtain ⟨t, m⟩ := e
  cases t <;> rfl

/-- C8: the claim that both wrapped dispatch functions are total and always
return a Response fails on the code — every handler error is indeed caught
and turned into a status-mapped response in both modes, but the
streaming-mode wrapper returns None (no Response at all) on a normal
handler return, shown here at a concrete (headers, stream) input. -/
theorem c8_stream_mode_totality_gap :
    (∀ e : Exc, (format_stream (Except.error e)).isSome = true) ∧
    format_stream (Except.ok ⟨[("Content-Disposition", "attachment")], [[104, 105]]⟩)
      = none := by
  refine ⟨?_, rfl⟩
  intro e
  obtain ⟨t, m⟩ := e
  cases t <;> rfl

/-- C9: for every content-type other than application/json and
application/octet-stream, the endpoint decorator selects the
content_type_not_implemented wrapper, which for every request and
regardless of the request data returns HTTP 500 with Status "Critical" and
the fixed Content-type-not-defined message for that content type. -/
theorem c9_unknown_content_type (content_type : String) (args : List JsonValue)
    (h1 : content_type ≠ "application/json")
    (h2 : content_type ≠ "application/octet-stream") :
    endpoint content_type = .notDefined ∧
    content_type_not_implemented content_type args =
      { body := .json (.obj [("Status", .str "Critical"),
          ("Message", .str ("Content-type not defined: \x27" ++ content_type ++ "\x27"))]),
        status := 500, mimetype := "application/json", headers := [] } := by
  refine ⟨?_, rfl⟩
  unfold endpoint
  rw [if_neg h1, if_neg h2]

/-- C9 witness: the unknown content type text/html at a concrete request. -/
theorem c9_unknown_content_type_witness :
    endpoint "text/html" = .notDefined ∧
    content_type_not_implemented "text/html" [JsonValue.null] =
      { body := .json (.obj [("Status", .str "Critical"),
          ("Message", .str "Content-type not defined: \x27text/html\x27")]),
        status := 500, mimetype := "application/json", headers := [] } :=
  c9_unknown_content_type "text/html" [JsonValue.null] (by decide) (by decide)

/-- C10: error classification in both dispatch modes looks up the exact
dynamic type in the taxonomy table, not subclass relationships — a proper
subclass of NotFound, and the WebException base class itself, are not keys
of RESPONSE_MAP even though NotFound is mapped to 404, so both produce 500
with Status "Critical" in JSON mode and in streaming mode. -/
theorem c10_exact_type_dispatch (msg : String) :
    isStrictSubclass .notFoundSubclass .notFound = true ∧
    RESPONSE_MAP .notFound = some 404 ∧
    RESPONSE_MAP .notFoundSubclass = none ∧
    RESPONSE_MAP .webException = none ∧
    (format_json (.error ⟨.notFoundSubclass, msg⟩)).status = 500 ∧
    statusField (format_json (.error ⟨.notFoundSubclass, msg⟩)) = some (.str "Critical") ∧
    (format_json (.error ⟨.webException, msg⟩)).status = 500 ∧
    statusField (format_json (.error ⟨.webException, msg⟩)) = some (.str "Critical") ∧
    format_stream (.error ⟨.notFoundSubclass, msg⟩)
      = some (format_json (.error ⟨.notFoundSubclass, msg⟩)) ∧
    format_stream (.error ⟨.webException, msg⟩)
      = some (format_json (.error ⟨.webException, msg⟩)) :=
  ⟨rfl, rfl, rfl, rfl, rfl, rfl, rfl, rfl, rfl, rfl⟩

/-- C3: a request with no Authorization header to a token-protected route
gets HTTP 403 with body exactly the JSON object with Status "Error" and the
TokenNotFound message, whatever the environment and handler. -/
theorem c3_missing_authorization_header (env : AuthEnv) (req : Request)
    (handler : Client → Except Exc JsonValue)
    (h : req.authorization = none) :
    protectedJson env req handler =
      { body := .json (.obj [("Status", .str "Error"),
          ("Message", .str "Expected \"Authorization: Bearer <token>\" in header")]),
        status := 403, mimetype := "application/json", headers := [] } := by
  unfold protectedJson authenticated
  rw [h]
  rfl

/-- C3 witness: a concrete headerless request. -/
theorem c3_missing_authorization_header_witness :
    protectedJson ⟨[], 0, [], fun s => s⟩ ⟨none, none⟩ (fun _ => Except.ok JsonValue.null) =
      { body := .json (.obj [("Status", .str "Error"),
          ("Message", .str "Expected \"Authorization: Bearer <token>\" in header")]),
        status := 403, mimetype := "application/json", headers := [] } :=
  c3_missing_authorization_header ⟨[], 0, [], fun s => s⟩ ⟨none, none⟩
    (fun _ => Except.ok JsonValue.null) rfl

/-- C4: for a client whose access-revocation flag is set, both the bearer
token path and the key/secret credential path yield HTTP 401 with Status
"Error" and Message "Access has been revoked", even though the token is
validly signed and unexpired and the secret verifies. -/
theorem c4_access_revoked_both_paths (env : AuthEnv) (reqT reqC : Request)
    (client : Client) (handler : Client → Except Exc JsonValue)
    (header : String) (claims : JWT) (key secret : String)
    (hreq : reqT.authorization = some header)
    (hbear : strTake header 7 = "Bearer ")
    (htok : env.signedTokens.lookup (strDrop header 7) = some claims)
    (hexp : ¬ env.now > claims.exp)
    (hsub : env.clients.find? (fun c => c.id == claims.sub) = some client)
    (hrev : client.revoked = true)
    (hreqC : reqC.auth = some (key, secret))
    (hkey : env.clients.find? (fun c => c.key == key) = some client)
    (hsec : env.hash secret = client.secretHash) :
    protectedJson env reqT handler =
      { body := .json (.obj [("Status", .str "Error"),
          ("Message", .str "Access has been revoked")]),
        status := 401, mimetype := "application/json", headers := [] } ∧
    loginJson env reqC handler =
      { body := .json (.obj [("Status", .str "Error"),
          ("Message", .str "Access has been revoked")]),
        status := 401, mimetype := "application/json", headers := [] } := by
  have hauth : authenticated env reqT = .error ⟨.permissionDenied, "Access has been revoked"⟩ := by
    unfold authenticated decrypt
    rw [hreq]
    simp [hbear, htok, hexp, hsub, hrev]
  have hver : verify env reqC = .error ⟨.permissionDenied, "Access has been revoked"⟩ := by
    unfold verify
    rw [hreqC]
    simp [hkey, hsec, hrev]
  constructor
  · unfold protectedJson
    rw [hauth]
    rfl
  · unfold loginJson
    rw [hver]
    rfl

/-- C4 witness: a concrete revoked client reached through a valid token and
through its valid key/secret credential. -/
theorem c4_access_revoked_both_paths_witness :
    protectedJson ⟨[("tok", ⟨1, 10⟩)], 0, [⟨1, "key1", "h1", true⟩], fun s => s⟩
        ⟨some "Bearer tok", none⟩ (fun _ => Except.ok JsonValue.null) =
      { body := .json (.obj [("Status", .str "Error"),
          ("Message", .str "Access has been revoked")]),
        status := 401, mimetype := "application/json", headers := [] } ∧
    loginJson ⟨[("tok", ⟨1, 10⟩)], 0, [⟨1, "key1", "h1", true⟩], fun s => s⟩
        ⟨none, some ("key1", "h1")⟩ (fun _ => Except.ok JsonValue.null) =
      { body := .json (.obj [("Status", .str "Error"),
          ("Message", .str "Access has been revoked")]),
        status := 401, mimetype := "application/json", headers := [] } :=
  c4_access_revoked_both_paths
    ⟨[("tok", ⟨1, 10⟩)], 0, [⟨1, "key1", "h1", true⟩], fun s => s⟩
    ⟨some "Bearer tok", none⟩ ⟨none, some ("key1", "h1")⟩
    ⟨1, "key1", "h1", true⟩ (fun _ => Except.ok JsonValue.null)
    "Bearer tok" ⟨1, 10⟩ "key1" "h1"
    rfl rfl rfl (by decide) rfl rfl rfl rfl rfl

/-- C5: a bearer token that fails signature verification yields HTTP 403
with Status "Error" and a Message equal to a fixed function of only the
first
3 and the last 3 characters of the token joined by "..." — so the
message includes the truncated preview and reveals nothing else of the
token. -/
theorem c5_token_invalid_truncated_preview (env : AuthEnv) (req : Request)
    (handler : Client → Except Exc JsonValue) (header : String)
    (hreq : req.authorization = some header)
    (hbear : strTake header 7 = "Bearer ")
    (htok : env.signedTokens.lookup (strDrop header 7) = none) :
    protectedJson env req handler =
      { body := .json (.obj [("Status", .str "Error"),
          ("Message", .str ("Token invalid: \x27" ++ strTake (strDrop header 7) 3
            ++ "..." ++ strTakeRight (strDrop header 7) 3 ++ "\x27"))]),
        status := 403, mimetype := "application/json", headers := [] } := by
  have hauth : authenticated env req =
      .error ⟨.tokenInvalid, "Token invalid: \x27" ++ truncated (strDrop header 7) ++ "\x27"⟩ := by
    unfold authenticated decrypt
    rw [hreq]
    simp [hbear, htok]
  unfold protectedJson
  rw [hauth]
  rfl

/-- C5 witness: the malformed token bad-token from the integration test,
whose preview is bad...ken. -/
theorem c5_token_invalid_truncated_preview_witness :
    protectedJson ⟨[], 0, [], fun s => s⟩ ⟨some "Bearer bad-token", none⟩
        (fun _ => Except.ok JsonValue.null) =
      { body := .json (.obj [("Status", .str "Error"),
          ("Message", .str "Token invalid: \x27bad...ken\x27")]),
        status := 403, mimetype := "application/json", headers := [] } :=
  c5_token_invalid_truncated_preview ⟨[], 0, [], fun s => s⟩
    ⟨some "Bearer bad-token", none⟩ (fun _ => Except.ok JsonValue.null)
    "Bearer bad-token" rfl rfl rfl

end Refitt
